import Mathlib

/-!
Verification of the Ride Pattern Mining & Route Synthesis Engine
(cycling-ai-app).

The JavaScript sources are shallowly embedded as Lean definitions:
JS numbers are modeled as exact rationals (ℚ), JS arrays as `List`,
optional / possibly-absent fields as `Option`, and JS's stable
`Array.prototype.sort` as `List.insertionSort` (a stable sort, so it
produces the same result as any stable comparison sort for a total
preorder comparator).  The transcendental geographic helpers
(`calculateDistance`, haversine over real trigonometry, and
`calculateBearing`) cannot be represented exactly in ℚ, so functions
that call them take the metric/bearing as an explicit function
parameter; every theorem below either quantifies over that parameter
or instantiates it with a concrete rational-valued stand-in.  The
`Math.sqrt(dx^2+dy^2) < tol` test of the clusterer is embedded as the
equivalent comparison `dx^2+dy^2 < tol^2` (both sides non-negative and
squaring is monotone).
-/

namespace CyclingAI

set_option maxRecDepth 16000

/-- A JS `[lon, lat]` coordinate pair. -/
abbrev Coord := ℚ × ℚ

/-- A `{lat, lon}` location sample (the `type` tag carried by
`extractRideLocations` is never read downstream and is omitted). -/
structure Loc where
  lat : ℚ
  lon : ℚ
deriving DecidableEq

/-- JS truncating division toward zero, as used by the `%` operator. -/
def jsTrunc (q : ℚ) : ℤ :=
  if 0 ≤ q then ⌊q⌋ else -⌊-q⌋

/-- JS remainder operator `a % b` (sign follows the dividend). -/
def jsMod (a b : ℚ) : ℚ :=
  a - b * (jsTrunc (a / b) : ℚ)

/-- JS `Math.round` (round half toward positive infinity). -/
def jsRound (q : ℚ) : ℤ := ⌊q + 1/2⌋

/-! ## Embedding of `frontend/src/utils/rideAnalysis.js` -/

structure TrackPoint where
  latitude : ℚ
  longitude : ℚ
deriving DecidableEq

/-- `ride.summary` object; both fields are optional in the data. -/
structure Summary where
  distance : Option ℚ
  elevation_gain : Option ℚ
deriving DecidableEq

/-- A stored ride.  A missing/null `track_points` array behaves exactly
like an empty one in `extractRideLocations`, so it is modeled as `[]`. -/
structure RideRecord where
  track_points : List TrackPoint
  summary : Option Summary
deriving DecidableEq

structure Percentiles where
  p25 : ℚ
  p50 : ℚ
  p75 : ℚ
  p90 : ℚ
deriving DecidableEq

structure NumRange where
  min : ℚ
  max : ℚ
deriving DecidableEq

/-- A distance bucket as returned by `findMostCommonDistanceRange`. -/
structure RangeBucket where
  min : ℚ
  max : ℚ
  name : String
  count : ℕ
deriving DecidableEq, Inhabited

/-- Result of `analyzeDistanceDistribution`. -/
structure DistStats where
  mean : ℚ
  median : ℚ
  percentiles : Percentiles
  range : NumRange
  mostCommon : RangeBucket
deriving DecidableEq

/-- Result of `getDistanceDistribution`. -/
structure DistCategories where
  short : ℚ
  medium : ℚ
  long : ℚ
  veryLong : ℚ
deriving DecidableEq

/-- `elevationTolerance` object.  The initial object has no `mean` or
`tolerance` field (they are added by `analyzeElevationPreference`),
hence those two are `Option`. -/
structure ElevationTolerance where
  min : ℚ
  max : ℚ
  preferred : ℚ
  mean : Option ℚ
  tolerance : Option ℚ
deriving DecidableEq

structure DirectionPref where
  direction : String
  bearing : ℚ
  frequency : ℕ
  preference : ℚ
deriving DecidableEq, Inhabited

structure FrequentArea where
  center : Coord
  frequency : ℕ
  confidence : ℚ
deriving DecidableEq

/-- The riding-pattern profile assembled by `analyzeRidingPatterns`.
`preferredDistances` is initialized in JS to the empty array `[]`
(no `mean` field) and possibly replaced by a stats object, hence
`Option DistStats`; likewise `distanceDistribution` starts as `{}`.
The always-empty `timePreferences` object is omitted. -/
structure Patterns where
  preferredDistances : Option DistStats
  preferredDirections : List DirectionPref
  elevationPreference : String
  averageSpeed : ℚ
  frequentAreas : List FrequentArea
  distanceDistribution : Option DistCategories
  elevationTolerance : ElevationTolerance
deriving DecidableEq

def locToCoord (l : Loc) : Coord := (l.lon, l.lat)

def tpLoc (p : TrackPoint) : Loc := ⟨p.latitude, p.longitude⟩

/-- Sample indices used by `extractRideLocations`:
`Math.floor((len - 1) * (i / 100))` for `i = 10, 30, 50, 70, 90`. -/
def sampleIndices (n : ℕ) : List ℕ :=
  [10, 30, 50, 70, 90].map (fun i => (n - 1) * i / 100)

/-- `extractRideLocations`: start point, five interior samples, end point. -/
def extractRideLocations (ride : RideRecord) : List Loc :=
  let tp := ride.track_points
  if tp = [] then []
  else
    (match tp.head? with | some p => [tpLoc p] | none => [])
    ++ ((sampleIndices tp.length).filterMap (fun i => (tp.get? i).map tpLoc))
    ++ (match tp.getLast? with | some p => [tpLoc p] | none => [])

/-- Cluster centroid latitude (the running group mean). -/
def centroidLat (c : List Loc) : ℚ := (c.map (·.lat)).sum / (c.length : ℚ)

/-- Cluster centroid longitude. -/
def centroidLon (c : List Loc) : ℚ := (c.map (·.lon)).sum / (c.length : ℚ)

/-- The clusterer's proximity test
`Math.sqrt((lat-cLat)^2 + (lon-cLon)^2) < 0.01`, embedded squared. -/
def withinTolerance (l : Loc) (c : List Loc) : Bool :=
  decide ((l.lat - centroidLat c) ^ 2 + (l.lon - centroidLon c) ^ 2 < (1/100) ^ 2)

/-- One step of the greedy pass in `findFrequentAreas`: append the
location to the first cluster whose centroid is within tolerance,
else start a new cluster at the end of the list. -/
def placeLoc : List (List Loc) → Loc → List (List Loc)
  | [], l => [[l]]
  | c :: cs, l =>
      if withinTolerance l c then (c ++ [l]) :: cs else c :: placeLoc cs l

/-- The full left-to-right greedy clustering pass. -/
def clustersOf (locs : List Loc) : List (List Loc) :=
  locs.foldl placeLoc []

/-- Conversion of a retained cluster to a `FrequentArea`. -/
def clusterToArea (c : List Loc) : FrequentArea :=
  { center := (centroidLon c, centroidLat c)
    frequency := c.length
    confidence := min ((c.length : ℚ) / 10) 1 }

/-- Ordering used by `areas.sort((a, b) => b.frequency - a.frequency)`. -/
def areaFreqGE (a b : FrequentArea) : Prop := b.frequency ≤ a.frequency

instance : DecidableRel areaFreqGE :=
  fun a b => inferInstanceAs (Decidable (b.frequency ≤ a.frequency))

instance : IsTotal FrequentArea areaFreqGE :=
  ⟨fun a b => Nat.le_total b.frequency a.frequency⟩

instance : IsTrans FrequentArea areaFreqGE :=
  ⟨fun _ _ _ h1 h2 => Nat.le_trans h2 h1⟩

/-- `findFrequentAreas`: greedy clustering of the flattened location
samples, keep clusters of size ≥ 3, sort by frequency descending
(stable), return the top 5. -/
def findFrequentAreas (rideLocations : List (List Loc)) : List FrequentArea :=
  let allLocations := rideLocations.flatten
  let clusters := clustersOf allLocations
  let areas := (clusters.filter (fun c => decide (3 ≤ c.length))).map clusterToArea
  (areas.insertionSort areaFreqGE).take 5

/-- Bearings between consecutive location samples of one ride
(rides with fewer than two samples contribute nothing). -/
def consecutiveBearings (bearing : Coord → Coord → ℚ) (locations : List Loc) :
    List ℚ :=
  if locations.length < 2 then []
  else (locations.zip locations.tail).map
    (fun pr => bearing (locToCoord pr.1) (locToCoord pr.2))

/-- Sector index `Math.floor(((bearing + 22.5) % 360) / 45)`. -/
def sectorOf (b : ℚ) : ℤ := ⌊(jsMod (b + 45/2) 360) / 45⌋

def sectorNames : List String := ["N", "NE", "E", "SE", "S", "SW", "W", "NW"]

/-- Ordering used by `sort((a, b) => b.frequency - a.frequency)` on
direction preferences. -/
def dirFreqGE (a b : DirectionPref) : Prop := b.frequency ≤ a.frequency

instance : DecidableRel dirFreqGE :=
  fun a b => inferInstanceAs (Decidable (b.frequency ≤ a.frequency))

instance : IsTotal DirectionPref dirFreqGE :=
  ⟨fun a b => Nat.le_total b.frequency a.frequency⟩

instance : IsTrans DirectionPref dirFreqGE :=
  ⟨fun _ _ _ h1 h2 => Nat.le_trans h2 h1⟩

/-- `analyzePreferredDirections`: 45°-sector histogram of consecutive
bearings, keep sectors with preference > 0.1, top 3 by frequency. -/
def analyzePreferredDirections (bearing : Coord → Coord → ℚ)
    (rideLocations : List (List Loc)) : List DirectionPref :=
  let directions := (rideLocations.map (consecutiveBearings bearing)).flatten
  if directions = [] then []
  else
    let counts := (List.range 8).map
      (fun i => (directions.filter (fun b => decide (sectorOf b = i))).length)
    let preferences := ((List.range 8).map (fun i =>
      { direction := sectorNames.getD i ""
        bearing := (i : ℚ) * 45
        frequency := counts.getD i 0
        preference := (counts.getD i 0 : ℚ) / (directions.length : ℚ)
        : DirectionPref })).filter
      (fun p => decide ((1:ℚ)/10 < p.preference))
    (preferences.insertionSort dirFreqGE).take 3

/-- `findMostCommonDistanceRange`: bucket counts over fixed ranges, then
a first-seen-wins `reduce` keeping the bucket with the larger count. -/
def findMostCommonDistanceRange (distances : List ℚ) : RangeBucket :=
  let ranges : List (ℚ × ℚ × String) :=
    [(0, 15, "short"), (15, 35, "medium"), (35, 65, "long"), (65, 150, "very_long")]
  let rangeCounts := ranges.map (fun r =>
    { min := r.1, max := r.2.1, name := r.2.2
      count := (distances.filter (fun d => decide (r.1 ≤ d ∧ d < r.2.1))).length
      : RangeBucket })
  rangeCounts.tail.foldl
    (fun best current => if best.count < current.count then current else best)
    rangeCounts.headI

/-- `analyzeDistanceDistribution`: sort ascending, floor-indexed
percentiles `sorted[⌊n·q⌋]`, arithmetic mean, min/max range. -/
def analyzeDistanceDistribution (distances : List ℚ) : DistStats :=
  let sorted := distances.insertionSort (· ≤ ·)
  let n := sorted.length
  let p50 := sorted.getD (n * 50 / 100) 0
  { mean := distances.sum / (distances.length : ℚ)
    median := p50
    percentiles :=
      { p25 := sorted.getD (n * 25 / 100) 0
        p50 := p50
        p75 := sorted.getD (n * 75 / 100) 0
        p90 := sorted.getD (n * 90 / 100) 0 }
    range := { min := sorted.getD 0 0, max := sorted.getD (n - 1) 0 }
    mostCommon := findMostCommonDistanceRange distances }

/-- `getDistanceDistribution`: fraction of rides per coarse category. -/
def getDistanceDistribution (distances : List ℚ) : DistCategories :=
  let total : ℚ := (distances.length : ℚ)
  { short := ((distances.filter (fun d => decide (d < 20))).length : ℚ) / total
    medium := ((distances.filter (fun d => decide (20 ≤ d ∧ d < 50))).length : ℚ) / total
    long := ((distances.filter (fun d => decide (50 ≤ d ∧ d < 100))).length : ℚ) / total
    veryLong := ((distances.filter (fun d => decide (100 ≤ d))).length : ℚ) / total }

/-- `analyzeElevationPreference`: min/max/rounded mean and rounded 60th
and 80th floor-indexed percentiles. -/
def analyzeElevationPreference (elevationGains : List ℚ) : ElevationTolerance :=
  let sorted := elevationGains.insertionSort (· ≤ ·)
  let n := sorted.length
  { min := sorted.getD 0 0
    max := sorted.getD (n - 1) 0
    mean := some (jsRound (elevationGains.sum / (elevationGains.length : ℚ)) : ℚ)
    preferred := (jsRound (sorted.getD (n * 60 / 100) 0) : ℚ)
    tolerance := some ((jsRound (sorted.getD (n * 80 / 100) 0) : ℚ)) }

/-- `categorizeElevationPreference`. -/
def categorizeElevationPreference (elevationGains : List ℚ) : String :=
  let mean := elevationGains.sum / (elevationGains.length : ℚ)
  if mean < 200 then "flat"
  else if mean < 500 then "rolling"
  else if mean < 1000 then "hilly"
  else "mountainous"

/-- `getDefaultPatterns`: the documented constant default profile. -/
def getDefaultPatterns : Patterns :=
  { preferredDistances := some
      { mean := 25
        median := 20
        percentiles := { p25 := 15, p50 := 20, p75 := 30, p90 := 40 }
        range := { min := 10, max := 50 }
        mostCommon := { min := 15, max := 35, name := "medium", count := 1 } }
    preferredDirections := []
    elevationPreference := "moderate"
    averageSpeed := 23
    frequentAreas := []
    distanceDistribution := some
      { short := 3/10, medium := 1/2, long := 1/5, veryLong := 0 }
    elevationTolerance :=
      { min := 0, max := 1000, preferred := 300, mean := some 300, tolerance := none } }

/-- `analyzeRidingPatterns`.  The `Option` on the ride list models the
JS `!pastRides` null/undefined check; the bearing helper (trigonometric
`calculateBearing` from `routeUtils.js`) is passed as a parameter. -/
def analyzeRidingPatterns (bearing : Coord → Coord → ℚ)
    (pastRides : Option (List RideRecord)) : Patterns :=
  match pastRides with
  | none => getDefaultPatterns
  | some rides =>
    if rides = [] then getDefaultPatterns
    else
      let base : Patterns :=
        { preferredDistances := none
          preferredDirections := []
          elevationPreference := "moderate"
          averageSpeed := 23
          frequentAreas := []
          distanceDistribution := none
          elevationTolerance :=
            { min := 0, max := 1000, preferred := 300, mean := none, tolerance := none } }
      let distances := rides.filterMap (fun r =>
        match r.summary with
        | some s =>
          match s.distance with
          | some d => if 0 < d then some d else none
          | none => none
        | none => none)
      let p1 :=
        if distances = [] then base
        else { base with
          preferredDistances := some (analyzeDistanceDistribution distances)
          distanceDistribution := some (getDistanceDistribution distances) }
      let elevationGains := rides.filterMap (fun r =>
        match r.summary with
        | some s => s.elevation_gain
        | none => none)
      let p2 :=
        if elevationGains = [] then p1
        else { p1 with
          elevationTolerance := analyzeElevationPreference elevationGains
          elevationPreference := categorizeElevationPreference elevationGains }
      let rideLocations := (rides.map extractRideLocations).filter (fun l => decide (l ≠ []))
      if rideLocations = [] then p2
      else { p2 with
        frequentAreas := findFrequentAreas rideLocations
        preferredDirections := analyzePreferredDirections bearing rideLocations }

/-- `adjustDistanceBasedOnPatterns`.  The JS guard
`!patterns.preferredDistances.mean` is falsy both when the stats object
is absent and when the mean is zero. -/
def adjustDistanceBasedOnPatterns (targetDistance : ℚ) (patterns : Patterns)
    (trainingGoal : String) : ℚ :=
  match patterns.preferredDistances with
  | none => targetDistance
  | some s =>
    if s.mean = 0 then targetDistance
    else
      let userMean := s.mean
      let confidence : ℚ := if s.range.min < s.range.max then 1 else 1/2
      if trainingGoal = "recovery" then min targetDistance (userMean * (4/5))
      else if trainingGoal = "endurance" then max targetDistance (userMean * (6/5))
      else
        let weight := confidence * (3/10)
        targetDistance * (1 - weight) + userMean * weight

/-! ## Embedding of the extended analysis module (project-summary document)

`buildSegmentDatabase` and `analyzeRoutePattern` live in the same module
scope as the haversine `calculateDistance` (kilometers), which is passed
below as the `dist` parameter. -/

/-- A route segment extracted from a past ride (`timestampMs` is the
epoch-millisecond value `new Date(segment.timestamp).getTime()`). -/
structure RouteSegment where
  coordinates : List Coord
  startPoint : Coord
  endPoint : Coord
  distance : ℚ
  bearing : ℚ
  timestampMs : ℚ
deriving DecidableEq

/-- An entry of the merged segment database. -/
structure SegmentEntry where
  coordinates : List Coord
  startPoint : Coord
  endPoint : Coord
  distance : ℚ
  bearing : ℚ
  timestampMs : ℚ
  usageCount : ℕ
  lastUsed : ℚ
  quality : String
deriving DecidableEq

/-- Bearing difference wrapped to `[0, 180]`:
`diff > 180 ? 360 - diff : diff` on `|a - b|`. -/
def normBearingDiff (a b : ℚ) : ℚ :=
  let d := |a - b|
  if 180 < d then 360 - d else d

/-- The similarity test of `buildSegmentDatabase`: both endpoint
distances below `tolerance = 0.005` (in the km-valued metric of the
enclosing module) and wrapped bearing difference below 30°. -/
def segmentsMatch (dist : Coord → Coord → ℚ) (s : RouteSegment)
    (e : SegmentEntry) : Bool :=
  decide (dist s.startPoint e.startPoint < 5/1000)
  && decide (dist s.endPoint e.endPoint < 5/1000)
  && decide (normBearingDiff s.bearing e.bearing < 30)

/-- A fresh database entry for an unmatched segment. -/
def newSegmentEntry (s : RouteSegment) : SegmentEntry :=
  { coordinates := s.coordinates
    startPoint := s.startPoint
    endPoint := s.endPoint
    distance := s.distance
    bearing := s.bearing
    timestampMs := s.timestampMs
    usageCount := 1
    lastUsed := s.timestampMs
    quality := "proven" }

/-- Merging a segment into an existing entry: bump the usage count,
keep the later `lastUsed`, keep the higher-resolution coordinates. -/
def mergeSegment (e : SegmentEntry) (s : RouteSegment) : SegmentEntry :=
  { e with
    usageCount := e.usageCount + 1
    lastUsed := max e.lastUsed s.timestampMs
    coordinates :=
      if e.coordinates.length < s.coordinates.length then s.coordinates
      else e.coordinates }

/-- The linear scan of `buildSegmentDatabase`: merge into the first
matching entry, else append a new entry at the end. -/
def insertSegment (dist : Coord → Coord → ℚ) :
    List SegmentEntry → RouteSegment → List SegmentEntry
  | [], s => [newSegmentEntry s]
  | e :: es, s =>
      if segmentsMatch dist s e then mergeSegment e s :: es
      else e :: insertSegment dist es s

/-- Ranking score `usageCount * 0.7 + lastUsed / 1e9 * 0.3`. -/
def segmentScore (e : SegmentEntry) : ℚ :=
  (e.usageCount : ℚ) * (7/10) + e.lastUsed / 1000000000 * (3/10)

def segScoreGE (a b : SegmentEntry) : Prop := segmentScore b ≤ segmentScore a

instance : DecidableRel segScoreGE :=
  fun a b => inferInstanceAs (Decidable (segmentScore b ≤ segmentScore a))

instance : IsTotal SegmentEntry segScoreGE :=
  ⟨fun a b => le_total (segmentScore b) (segmentScore a)⟩

instance : IsTrans SegmentEntry segScoreGE :=
  ⟨fun _ _ _ h1 h2 => le_trans h2 h1⟩

/-- `buildSegmentDatabase`: greedy grouping of all extracted segments,
then sort by the usage/recency score, descending. -/
def buildSegmentDatabase (dist : Coord → Coord → ℚ)
    (allSegments : List RouteSegment) : List SegmentEntry :=
  (allSegments.foldl (insertSegment dist) []).insertionSort segScoreGE

/-- A key point of a ride (`findKeyPoints` output), as consumed by
`analyzeRoutePattern`. -/
structure KeyPt where
  latitude : ℚ
  longitude : ℚ
deriving DecidableEq, Inhabited

def kpCoord (p : KeyPt) : Coord := (p.longitude, p.latitude)

/-- Number of index-aligned outbound/inbound pairs within 1 km
(the loop `for i < checkCount` of `analyzeRoutePattern`). -/
def similarCount (dist : Coord → Coord → ℚ) (outbound inbound : List KeyPt) : ℕ :=
  ((outbound.zip inbound).filter
    (fun pr => decide (dist (kpCoord pr.1) (kpCoord pr.2) < 1))).length

/-- `analyzeRoutePattern`: loop / out-and-back / point-to-point
classification of a ride's key points. -/
def analyzeRoutePattern (dist : Coord → Coord → ℚ) (keyPoints : List KeyPt) :
    String :=
  if keyPoints.length < 3 then "unknown"
  else if dist (kpCoord keyPoints.headI) (kpCoord keyPoints.getLastI) < 1/2 then
    "loop"
  else if 4 ≤ keyPoints.length then
    let mid := keyPoints.length / 2
    let outbound := keyPoints.take mid
    let inbound := (keyPoints.drop mid).reverse
    let checkCount := min outbound.length inbound.length
    if (3:ℚ)/5 < (similarCount dist outbound inbound : ℚ) / (checkCount : ℚ) then
      "out_back"
    else "point_to_point"
  else "point_to_point"

/-- The route-shape classifier exactly as the claim words it: the
out-and-back half comparison is attempted for every non-loop input with
at least 3 key points (no additional ≥ 4 guard).  Used only to exhibit
where the code deviates from the claim. -/
def routePatternClaimed (dist : Coord → Coord → ℚ) (keyPoints : List KeyPt) :
    String :=
  if keyPoints.length < 3 then "unknown"
  else if dist (kpCoord keyPoints.headI) (kpCoord keyPoints.getLastI) < 1/2 then
    "loop"
  else
    let mid := keyPoints.length / 2
    let outbound := keyPoints.take mid
    let inbound := (keyPoints.drop mid).reverse
    let checkCount := min outbound.length inbound.length
    if (3:ℚ)/5 < (similarCount dist outbound inbound : ℚ) / (checkCount : ℚ) then
      "out_back"
    else "point_to_point"

/-! ## Embedding of `mapMatchRoute` (directions module) -/

/-- One entry of the provider's `matchings` array; the numeric fields
are optional (the code applies `|| 0` defaults). -/
structure Matching where
  geometry : List Coord
  distance : Option ℚ
  duration : Option ℚ
  confidence : Option ℚ
deriving DecidableEq

/-- Outcome of the single provider interaction performed by
`mapMatchRoute`: a non-2xx HTTP response, a parsed body whose
`matchings` array may be empty (an absent array behaves like an empty
one), or a thrown network/parse exception. -/
inductive ProviderOutcome where
  | httpError (status : ℕ)
  | ok (matchings : List Matching)
  | exception
deriving DecidableEq

structure MatchResult where
  coordinates : List Coord
  distance : ℚ
  duration : ℚ
  confidence : ℚ
  profile : String
deriving DecidableEq

/-- `mapMatchRoute`: total over every provider outcome; every failure
branch returns the input waypoints with zeroed metrics. -/
def mapMatchRoute (profile : String) (waypoints : List Coord)
    (outcome : ProviderOutcome) : MatchResult :=
  if waypoints.length < 2 then
    { coordinates := waypoints, distance := 0, duration := 0, confidence := 0
      profile := "none" }
  else
    match outcome with
    | .httpError _ =>
      { coordinates := waypoints, distance := 0, duration := 0, confidence := 0
        profile := "failed" }
    | .ok [] =>
      { coordinates := waypoints, distance := 0, duration := 0, confidence := 0
        profile := "no-match" }
    | .ok (m :: _) =>
      { coordinates := m.geometry
        distance := m.distance.getD 0
        duration := m.duration.getD 0
        confidence := m.confidence.getD 0
        profile := profile }
    | .exception =>
      { coordinates := waypoints, distance := 0, duration := 0, confidence := 0
        profile := "error" }

/-! ## Embedding of `frontend/src/utils/aiRouteGenerator.js` (scoring) -/

/-- The route-candidate fields consumed by the scorer. -/
structure Route where
  name : String
  distance : ℚ
  elevationGain : ℚ
  elevationLoss : ℚ
  coordinates : List Coord
  difficulty : String
  trainingGoal : String
  confidence : ℚ
  windFactor : ℚ
deriving DecidableEq

structure ScoredRoute where
  route : Route
  score : ℚ
deriving DecidableEq

/-- The weather collaborator's data as consumed by the scorer:
wind fields plus `getOptimalTrainingConditions`, which for a training
goal returns a conditions object carrying a quality score (or nothing). -/
structure WeatherData where
  windSpeed : ℚ
  windDegrees : ℚ
  conditionsScore : String → Option ℚ

def getTrainingGoalScore (route : Route) (goal : String) : ℚ :=
  if goal = "hills" then
    if 20 < route.elevationGain / route.distance then 1/5 else -(1/10)
  else if goal = "recovery" then
    if route.elevationGain / route.distance < 15 then 1/5 else -(1/10)
  else if goal = "intervals" then
    if 4/5 < route.windFactor then 3/20 else 0
  else 1/10

def getWeatherScore (route : Route) (weather : WeatherData) : ℚ :=
  match weather.conditionsScore route.trainingGoal with
  | some s => s * (1/5)
  | none => 0

def getTimeEfficiencyScore (route : Route) (timeAvailable : ℚ) : ℚ :=
  let estimatedTime := route.distance / 23 * 60
  let timeDiff := |estimatedTime - timeAvailable|
  if timeDiff < 10 then 1/5
  else if timeDiff < 20 then 1/10
  else -(1/10)

def getRouteQualityScore (route : Route) : ℚ :=
  (if 4/5 < route.confidence then (1:ℚ)/10 else 0)
  + (route.windFactor - 4/5) * (1/2)

def calculateRouteCenter (coordinates : List Coord) : Coord :=
  match coordinates with
  | [] => (0, 0)
  | _ =>
    ((coordinates.map Prod.fst).sum / (coordinates.length : ℚ),
     (coordinates.map Prod.snd).sum / (coordinates.length : ℚ))

/-- The JS truthiness test `patterns.preferredDistances?.mean`:
present and non-zero. -/
def distanceSignal (p : Patterns) : Bool :=
  match p.preferredDistances with
  | some s => decide (s.mean ≠ 0)
  | none => false

/-- The `score` accumulator of `calculatePatternConfidence`: each
present signal adds its weighted contribution. -/
def patternScoreSum (p : Patterns) : ℚ :=
  (if distanceSignal p then (3:ℚ)/10 else 0)
  + (if p.frequentAreas ≠ [] then
      (3:ℚ)/10 * min ((p.frequentAreas.length : ℚ) / 3) 1 else 0)
  + (if p.preferredDirections ≠ [] then
      (1:ℚ)/5 * p.preferredDirections.headI.preference else 0)
  + (if p.elevationTolerance.mean.isSome then (1:ℚ)/5 else 0)

/-- The `factors` accumulator of `calculatePatternConfidence`: the
number of present signals. -/
def patternFactorCount (p : Patterns) : ℕ :=
  (if distanceSignal p then 1 else 0)
  + (if p.frequentAreas ≠ [] then 1 else 0)
  + (if p.preferredDirections ≠ [] then 1 else 0)
  + (if p.elevationTolerance.mean.isSome then 1 else 0)

/-- `calculatePatternConfidence` (the route-generator copy): weighted
sum of the present pattern signals divided by the number of present
factors, defaulting to 0.5 when no signal is present. -/
def calculatePatternConfidence (p : Patterns) : ℚ :=
  if 0 < patternFactorCount p then patternScoreSum p / (patternFactorCount p : ℚ)
  else 1/2

/-- The unweighted bonus/penalty sum accumulated by
`getHistoricalPatternScore` before the confidence weighting.
The `preferredElevation / patterns.preferredDistances?.mean || 15`
fallback fires when the ratio is not a usable number (absent mean). -/
def rawPatternScore (dist : Coord → Coord → ℚ) (route : Route)
    (p : Patterns) : ℚ :=
  let distancePart : ℚ :=
    match p.preferredDistances with
    | some s =>
      if s.mean = 0 then 0
      else
        let distanceDiff := |route.distance - s.mean| / s.mean
        if distanceDiff < 1/5 then 3/20
        else if distanceDiff < 2/5 then 1/10
        else if 1 < distanceDiff then -(1/10)
        else 0
    | none => 0
  let elevationPart : ℚ :=
    if p.elevationTolerance.preferred ≠ 0 then
      let preferredRatio : ℚ :=
        match p.preferredDistances with
        | some s =>
          if p.elevationTolerance.preferred / s.mean = 0 then 15
          else p.elevationTolerance.preferred / s.mean
        | none => 15
      let elevationRatio := route.elevationGain / route.distance
      let elevationDiff := |elevationRatio - preferredRatio| / preferredRatio
      if elevationDiff < 3/10 then 1/10
      else if 3/2 < elevationDiff then -(1/20)
      else 0
    else 0
  let areaPart : ℚ :=
    if p.frequentAreas ≠ [] ∧ route.coordinates ≠ [] then
      if p.frequentAreas.any (fun area =>
          decide (dist (calculateRouteCenter route.coordinates) area.center < 5))
      then 1/10 else 0
    else 0
  distancePart + elevationPart + areaPart

/-- `getHistoricalPatternScore`: the raw pattern bonus weighted by the
overall pattern confidence. -/
def getHistoricalPatternScore (dist : Coord → Coord → ℚ) (route : Route)
    (p : Patterns) : ℚ :=
  rawPatternScore dist route p * calculatePatternConfidence p

/-- The criteria record passed to `scoreRoutes`. -/
structure ScoreCriteria where
  trainingGoal : String
  weatherData : Option WeatherData
  timeAvailable : ℚ
  ridingPatterns : Option Patterns

/-- The per-route accumulation inside `scoreRoutes`: base 0.5 plus the
five sub-scores (weather and pattern contributions are skipped when the
corresponding input is absent). -/
def routeScoreRaw (dist : Coord → Coord → ℚ) (route : Route)
    (c : ScoreCriteria) : ℚ :=
  1/2
  + getTrainingGoalScore route c.trainingGoal
  + (match c.weatherData with
     | some w => getWeatherScore route w
     | none => 0)
  + getTimeEfficiencyScore route c.timeAvailable
  + getRouteQualityScore route
  + (match c.ridingPatterns with
     | some p => getHistoricalPatternScore dist route p
     | none => 0)

/-- `Math.max(0, Math.min(1, score))`. -/
def clamp01 (q : ℚ) : ℚ := max 0 (min 1 q)

def scoredGE (a b : ScoredRoute) : Prop := b.score ≤ a.score

instance : DecidableRel scoredGE :=
  fun a b => inferInstanceAs (Decidable (b.score ≤ a.score))

instance : IsTotal ScoredRoute scoredGE :=
  ⟨fun a b => le_total b.score a.score⟩

instance : IsTrans ScoredRoute scoredGE :=
  ⟨fun _ _ _ h1 h2 => le_trans h2 h1⟩

/-- `scoreRoutes`: clamp each accumulated score into `[0,1]` and sort
descending by score. -/
def scoreRoutes (dist : Coord → Coord → ℚ) (routes : List Route)
    (c : ScoreCriteria) : List ScoredRoute :=
  (routes.map (fun r =>
    { route := r, score := clamp01 (routeScoreRaw dist r c) })).insertionSort
    scoredGE

/-! ## Concrete instantiations used by counterexamples and witnesses -/

/-- A rational-valued stand-in for the km-valued haversine
`calculateDistance`, pinned on the two endpoint pairs of the C2
segments: start-to-start 0.2 km, end-to-end 0.3 km. -/
def distC2 (p q : Coord) : ℚ :=
  if p = q then 0
  else if (p = ((0:ℚ), (0:ℚ)) ∧ q = ((1:ℚ), (0:ℚ)))
       ∨ (p = ((1:ℚ), (0:ℚ)) ∧ q = ((0:ℚ), (0:ℚ))) then 1/5
  else if (p = ((0:ℚ), (1:ℚ)) ∧ q = ((1:ℚ), (1:ℚ)))
       ∨ (p = ((1:ℚ), (1:ℚ)) ∧ q = ((0:ℚ), (1:ℚ))) then 3/10
  else 100

def segC2a : RouteSegment :=
  { coordinates := [(0, 0), (0, 1)], startPoint := (0, 0), endPoint := (0, 1)
    distance := 2, bearing := 45, timestampMs := 0 }

def segC2b : RouteSegment :=
  { coordinates := [(1, 0), (1, 1)], startPoint := (1, 0), endPoint := (1, 1)
    distance := 2, bearing := 55, timestampMs := 0 }

/-- A rational-valued stand-in metric for the C4 input: the only
distance the classifier consults on a 3-point path is first-to-last,
pinned here to 0.7 km. -/
def distC4 (p q : Coord) : ℚ :=
  if p = q then 0
  else if (p = ((9:ℚ), (0:ℚ)) ∧ q = ((0:ℚ), (0:ℚ)))
       ∨ (p = ((0:ℚ), (0:ℚ)) ∧ q = ((9:ℚ), (0:ℚ))) then 7/10
  else 100

def keyPtsC4 : List KeyPt := [⟨0, 0⟩, ⟨0, 5⟩, ⟨0, 9⟩]

/-! ## Claim theorems -/

/-- C1: for a null/undefined or empty ride list, `analyzeRidingPatterns`
returns exactly the constant default profile of `getDefaultPatterns`,
with the documented field values (mean 25, median 20, percentiles
15/20/30/40, range 10–50, empty frequent areas and directions,
'moderate' elevation preference, average speed 23, and elevation
tolerance min 0 / max 1000 / preferred 300 / mean 300); being a plain
constant definition, it depends on no mutable state. -/
theorem claim_C1_default_profile (bearing : Coord → Coord → ℚ) :
    analyzeRidingPatterns bearing none = getDefaultPatterns ∧
    analyzeRidingPatterns bearing (some []) = getDefaultPatterns ∧
    (analyzeRidingPatterns bearing (some [])).preferredDistances = some
      { mean := 25, median := 20
        percentiles := { p25 := 15, p50 := 20, p75 := 30, p90 := 40 }
        range := { min := 10, max := 50 }
        mostCommon := { min := 15, max := 35, name := "medium", count := 1 } } ∧
    (analyzeRidingPatterns bearing (some [])).frequentAreas = [] ∧
    (analyzeRidingPatterns bearing (some [])).preferredDirections = [] ∧
    (analyzeRidingPatterns bearing (some [])).elevationPreference = "moderate" ∧
    (analyzeRidingPatterns bearing (some [])).averageSpeed = 23 ∧
    (analyzeRidingPatterns bearing (some [])).elevationTolerance =
      { min := 0, max := 1000, preferred := 300, mean := some 300, tolerance := none } :=
  ⟨rfl, rfl, rfl, rfl, rfl, rfl, rfl, rfl⟩

/-- C2: evaluating `buildSegmentDatabase` at two segments whose
start-to-start distance is 0.2 km, end-to-end distance 0.3 km and
bearing difference 10°: the code does NOT merge them (its `tolerance =
0.005` is compared against the km-valued `calculateDistance`, i.e. an
effective 5 m threshold, contradicting its own "~500m tolerance"
comment), so the database keeps two entries with `usageCount = 1`
instead of one entry with `usageCount = 2`. -/
theorem claim_C2_no_merge_at_point2km :
    distC2 segC2b.startPoint segC2a.startPoint = 1/5 ∧
    distC2 segC2b.endPoint segC2a.endPoint = 3/10 ∧
    normBearingDiff segC2b.bearing segC2a.bearing = 10 ∧
    (buildSegmentDatabase distC2 [segC2a, segC2b]).map (fun e => e.usageCount)
      = [1, 1] := by with_unfolding_all decide

/-- C5: when the profile carries a (non-zero) historical mean distance,
`adjustDistanceBasedOnPatterns` returns `min(target, mean·0.8)` for
'recovery', `max(target, mean·1.2)` for 'endurance', and the blend
`target·(1−w) + mean·w` with `w = confidenceFactor·0.3`
(`confidenceFactor = 1` when the historical range has spread, else 0.5)
for every other goal; with no mean present the target is unchanged. -/
theorem claim_C5_adjust_distance (patterns : Patterns) (targetDistance : ℚ)
    (trainingGoal : String) :
    (patterns.preferredDistances = none →
      adjustDistanceBasedOnPatterns targetDistance patterns trainingGoal
        = targetDistance) ∧
    (∀ s, patterns.preferredDistances = some s → s.mean ≠ 0 →
      (trainingGoal = "recovery" →
        adjustDistanceBasedOnPatterns targetDistance patterns trainingGoal
          = min targetDistance (s.mean * (4/5))) ∧
      (trainingGoal = "endurance" →
        adjustDistanceBasedOnPatterns targetDistance patterns trainingGoal
          = max targetDistance (s.mean * (6/5))) ∧
      (trainingGoal ≠ "recovery" → trainingGoal ≠ "endurance" →
        adjustDistanceBasedOnPatterns targetDistance patterns trainingGoal
          = targetDistance *
              (1 - (if s.range.min < s.range.max then (1:ℚ) else 1/2) * (3/10))
            + s.mean *
              ((if s.range.min < s.range.max then (1:ℚ) else 1/2) * (3/10)))) := by
  constructor
  · intro h
    simp [adjustDistanceBasedOnPatterns, h]
  · intro s hs hmean
    refine ⟨fun hg => ?_, fun hg => ?_, fun hg1 hg2 => ?_⟩
    · simp [adjustDistanceBasedOnPatterns, hs, hmean, hg]
    · simp [adjustDistanceBasedOnPatterns, hs, hmean, hg]
    · simp [adjustDistanceBasedOnPatterns, hs, hmean, hg1, hg2]

/-- C5 witness: three historical rides of 10/20/30 km give mean 20; an
endurance request with raw target 15 km is adjusted to
`max(15, 20·1.2) = 24` km, end to end through `analyzeRidingPatterns`. -/
theorem claim_C5_adjust_distance_witness :
    adjustDistanceBasedOnPatterns 15
      (analyzeRidingPatterns (fun _ _ => 0) (some
        [ { track_points := [], summary := some { distance := some 10, elevation_gain := none } }
        , { track_points := [], summary := some { distance := some 20, elevation_gain := none } }
        , { track_points := [], summary := some { distance := some 30, elevation_gain := none } } ]))
      "endurance" = 24 := by
  have h := ((claim_C5_adjust_distance
      (analyzeRidingPatterns (fun _ _ => 0) (some
        [ { track_points := [], summary := some { distance := some 10, elevation_gain := none } }
        , { track_points := [], summary := some { distance := some 20, elevation_gain := none } }
        , { track_points := [], summary := some { distance := some 30, elevation_gain := none } } ]))
      15 "endurance").2
      (analyzeDistanceDistribution [10, 20, 30]) (by with_unfolding_all decide)
      (by with_unfolding_all decide)).2.1 rfl
  rw [h]
  with_unfolding_all decide

/-- C8: the greedy clustering is order-dependent: these two orderings of
the same location multiset produce different cluster memberships and
different `findFrequentAreas` outputs. -/
theorem claim_C8_order_dependent :
    ([⟨0, 0⟩, ⟨0, 0⟩, ⟨0, 0⟩, ⟨0, 19/2000⟩, ⟨0, 19/1000⟩, ⟨0, 19/1000⟩,
      ⟨0, 19/1000⟩] : List Loc).Perm
      [⟨0, 19/1000⟩, ⟨0, 19/1000⟩, ⟨0, 19/1000⟩, ⟨0, 19/2000⟩, ⟨0, 0⟩, ⟨0, 0⟩,
       ⟨0, 0⟩] ∧
    clustersOf [⟨0, 0⟩, ⟨0, 0⟩, ⟨0, 0⟩, ⟨0, 19/2000⟩, ⟨0, 19/1000⟩,
        ⟨0, 19/1000⟩, ⟨0, 19/1000⟩] ≠
      clustersOf [⟨0, 19/1000⟩, ⟨0, 19/1000⟩, ⟨0, 19/1000⟩, ⟨0, 19/2000⟩,
        ⟨0, 0⟩, ⟨0, 0⟩, ⟨0, 0⟩] ∧
    findFrequentAreas [[⟨0, 0⟩, ⟨0, 0⟩, ⟨0, 0⟩, ⟨0, 19/2000⟩, ⟨0, 19/1000⟩,
        ⟨0, 19/1000⟩, ⟨0, 19/1000⟩]] ≠
      findFrequentAreas [[⟨0, 19/1000⟩, ⟨0, 19/1000⟩, ⟨0, 19/1000⟩,
        ⟨0, 19/2000⟩, ⟨0, 0⟩, ⟨0, 0⟩, ⟨0, 0⟩]] := by with_unfolding_all decide

/-- C9: `mapMatchRoute` never rejects: with fewer than 2 waypoints it
returns the waypoints with zeroed metrics regardless of any provider
outcome (it never consults the provider), and an HTTP error, an empty
matchings list, or a thrown exception likewise yields the original
waypoints with distance 0, duration 0 and confidence 0. -/
theorem claim_C9_map_match_total (profile : String) (waypoints : List Coord)
    (outcome : ProviderOutcome) :
    (waypoints.length < 2 →
      mapMatchRoute profile waypoints outcome =
        { coordinates := waypoints, distance := 0, duration := 0
          confidence := 0, profile := "none" }) ∧
    (2 ≤ waypoints.length →
      (∀ s, outcome = .httpError s →
        mapMatchRoute profile waypoints outcome =
          { coordinates := waypoints, distance := 0, duration := 0
            confidence := 0, profile := "failed" }) ∧
      (outcome = .ok [] →
        mapMatchRoute profile waypoints outcome =
          { coordinates := waypoints, distance := 0, duration := 0
            confidence := 0, profile := "no-match" }) ∧
      (outcome = .exception →
        mapMatchRoute profile waypoints outcome =
          { coordinates := waypoints, distance := 0, duration := 0
            confidence := 0, profile := "error" })) := by
  constructor
  · intro h
    simp [mapMatchRoute, h]
  · intro h
    have h2 : ¬ waypoints.length < 2 := Nat.not_lt.mpr h
    refine ⟨fun s hs => ?_, fun hs => ?_, fun hs => ?_⟩ <;>
      subst hs <;> simp [mapMatchRoute, h2]

/-- C9 witness: a one-waypoint call returns without contacting the
provider, and a two-waypoint call hit by an exception falls back to the
input waypoints with zeroed metrics. -/
theorem claim_C9_map_match_total_witness :
    mapMatchRoute "cycling" [((0:ℚ), (0:ℚ))] (.ok []) =
      { coordinates := [((0:ℚ), (0:ℚ))], distance := 0, duration := 0
        confidence := 0, profile := "none" } ∧
    mapMatchRoute "cycling" [((0:ℚ), (0:ℚ)), ((1:ℚ), (1:ℚ))] .exception =
      { coordinates := [((0:ℚ), (0:ℚ)), ((1:ℚ), (1:ℚ))], distance := 0
        duration := 0, confidence := 0, profile := "error" } :=
  ⟨(claim_C9_map_match_total "cycling" _ _).1 (by decide),
   ((claim_C9_map_match_total "cycling" _ _).2 (by decide)).2.2 rfl⟩

/-- C4 counterexample: on a 3-key-point path whose endpoints are 0.7 km
apart and whose single compared pair is within 1 km, the claim's rule
says 'out_back' but the code returns 'point_to_point' (its
out-and-back check additionally requires at least 4 key points). -/
theorem claim_C4_counterexample :
    3 ≤ keyPtsC4.length ∧
    routePatternClaimed distC4 keyPtsC4 = "out_back" ∧
    analyzeRoutePattern distC4 keyPtsC4 = "point_to_point" := by
  with_unfolding_all decide

/-- C7 counterexample: two far-apart triples of identical locations
produce two areas of equal frequency 3, so the output is not sorted
STRICTLY descending by frequency. -/
theorem claim_C7_counterexample :
    ((findFrequentAreas [[⟨0, 0⟩, ⟨0, 0⟩, ⟨0, 0⟩, ⟨1, 1⟩, ⟨1, 1⟩, ⟨1, 1⟩]]).map
      (fun a => a.frequency)) = [3, 3] ∧
    ¬ List.Sorted (fun a b => b.frequency < a.frequency)
        (findFrequentAreas [[⟨0, 0⟩, ⟨0, 0⟩, ⟨0, 0⟩, ⟨1, 1⟩, ⟨1, 1⟩, ⟨1, 1⟩]]) := by
  with_unfolding_all decide

/-! ## Remaining claim theorems -/

/-- Elements of an ascending-sorted list, read with `getD`, are
monotone in the index (within bounds). -/
lemma sorted_getD_le {l : List ℚ} (hs : List.Sorted (· ≤ ·) l) {i j : ℕ}
    (hij : i ≤ j) (hj : j < l.length) : l.getD i 0 ≤ l.getD j 0 := by
  have hi : i < l.length := lt_of_le_of_lt hij hj
  rw [List.getD_eq_get? l i 0, List.getD_eq_get? l j 0,
    List.get?_eq_get hi, List.get?_eq_get hj]
  exact hs.rel_get_of_le hij

/-- C3: for any non-empty list of positive distances the floor-indexed
percentiles of `analyzeDistanceDistribution` satisfy
`p25 ≤ p50 ≤ p75 ≤ p90`, with `range.min ≤ p25` and `p90 ≤ range.max`. -/
theorem claim_C3_percentile_order (distances : List ℚ) (hne : distances ≠ [])
    (hpos : ∀ d ∈ distances, 0 < d) :
    (analyzeDistanceDistribution distances).percentiles.p25 ≤
      (analyzeDistanceDistribution distances).percentiles.p50 ∧
    (analyzeDistanceDistribution distances).percentiles.p50 ≤
      (analyzeDistanceDistribution distances).percentiles.p75 ∧
    (analyzeDistanceDistribution distances).percentiles.p75 ≤
      (analyzeDistanceDistribution distances).percentiles.p90 ∧
    (analyzeDistanceDistribution distances).range.min ≤
      (analyzeDistanceDistribution distances).percentiles.p25 ∧
    (analyzeDistanceDistribution distances).percentiles.p90 ≤
      (analyzeDistanceDistribution distances).range.max := by
  have hs := List.sorted_insertionSort (α := ℚ) (· ≤ ·) distances
  have hn : 0 < (distances.insertionSort (· ≤ ·)).length := by
    rw [List.length_insertionSort]
    exact List.length_pos.mpr hne
  simp only [analyzeDistanceDistribution]
  set sorted := distances.insertionSort (· ≤ ·) with hsorted
  set n := sorted.length with hn_def
  have h90lt : n * 90 / 100 < n := Nat.div_lt_of_lt_mul (by omega)
  have h25 : n * 25 / 100 ≤ n * 50 / 100 := Nat.div_le_div_right (by omega)
  have h50 : n * 50 / 100 ≤ n * 75 / 100 := Nat.div_le_div_right (by omega)
  have h75 : n * 75 / 100 ≤ n * 90 / 100 := Nat.div_le_div_right (by omega)
  refine ⟨?_, ?_, ?_, ?_, ?_⟩
  · exact sorted_getD_le hs h25 (lt_of_le_of_lt (le_trans h50 h75) h90lt)
  · exact sorted_getD_le hs h50 (lt_of_le_of_lt h75 h90lt)
  · exact sorted_getD_le hs h75 h90lt
  · exact sorted_getD_le hs (Nat.zero_le _)
      (lt_of_le_of_lt (le_trans h25 (le_trans h50 h75)) h90lt)
  · exact sorted_getD_le hs (by omega) (by omega)

/-- C3 witness: the property at the concrete distance list `[10, 20, 30]`. -/
theorem claim_C3_percentile_order_witness :
    (analyzeDistanceDistribution [10, 20, 30]).percentiles.p25 ≤
      (analyzeDistanceDistribution [10, 20, 30]).percentiles.p50 ∧
    (analyzeDistanceDistribution [10, 20, 30]).percentiles.p50 ≤
      (analyzeDistanceDistribution [10, 20, 30]).percentiles.p75 ∧
    (analyzeDistanceDistribution [10, 20, 30]).percentiles.p75 ≤
      (analyzeDistanceDistribution [10, 20, 30]).percentiles.p90 ∧
    (analyzeDistanceDistribution [10, 20, 30]).range.min ≤
      (analyzeDistanceDistribution [10, 20, 30]).percentiles.p25 ∧
    (analyzeDistanceDistribution [10, 20, 30]).percentiles.p90 ≤
      (analyzeDistanceDistribution [10, 20, 30]).range.max :=
  claim_C3_percentile_order [10, 20, 30] (by decide)
    (by intro d hd; fin_cases hd <;> norm_num)

/-- C4 (amended): for at least 3 key points the classifier returns
'loop' when first-to-last distance is below 0.5 km; otherwise, WHEN
THERE ARE AT LEAST 4 KEY POINTS, it returns 'out_back' exactly when
strictly more than 60% of the half-to-reversed-half pairs are within
1 km, and 'point_to_point' otherwise; a non-loop input with exactly 3
key points is always 'point_to_point'. -/
theorem claim_C4_route_pattern_amended (dist : Coord → Coord → ℚ)
    (keyPoints : List KeyPt) (h3 : 3 ≤ keyPoints.length) :
    (dist (kpCoord keyPoints.headI) (kpCoord keyPoints.getLastI) < 1/2 →
      analyzeRoutePattern dist keyPoints = "loop") ∧
    (¬ dist (kpCoord keyPoints.headI) (kpCoord keyPoints.getLastI) < 1/2 →
      (keyPoints.length < 4 →
        analyzeRoutePattern dist keyPoints = "point_to_point") ∧
      (4 ≤ keyPoints.length →
        ((3:ℚ)/5 < (similarCount dist (keyPoints.take (keyPoints.length / 2))
              ((keyPoints.drop (keyPoints.length / 2)).reverse) : ℚ) /
            ((min (keyPoints.take (keyPoints.length / 2)).length
              ((keyPoints.drop (keyPoints.length / 2)).reverse.length) : ℕ) : ℚ) →
          analyzeRoutePattern dist keyPoints = "out_back") ∧
        (¬ ((3:ℚ)/5 < (similarCount dist (keyPoints.take (keyPoints.length / 2))
              ((keyPoints.drop (keyPoints.length / 2)).reverse) : ℚ) /
            ((min (keyPoints.take (keyPoints.length / 2)).length
              ((keyPoints.drop (keyPoints.length / 2)).reverse.length) : ℕ) : ℚ)) →
          analyzeRoutePattern dist keyPoints = "point_to_point"))) := by
  have hn3 : ¬ keyPoints.length < 3 := Nat.not_lt.mpr h3
  unfold analyzeRoutePattern
  rw [if_neg hn3]
  refine ⟨fun hl => ?_, fun hl => ⟨fun h4 => ?_, fun h4 => ⟨fun hsim => ?_, fun hsim => ?_⟩⟩⟩
  · rw [if_pos hl]
  · rw [if_neg hl, if_neg (Nat.not_le.mpr h4)]
  · rw [if_neg hl, if_pos h4]
    dsimp only
    rw [if_pos hsim]
  · rw [if_neg hl, if_pos h4]
    dsimp only
    rw [if_neg hsim]

/-- C4 witness: with a metric that makes the endpoints coincide, a
3-key-point path classifies as 'loop'. -/
theorem claim_C4_route_pattern_amended_witness :
    analyzeRoutePattern (fun _ _ => 0) keyPtsC4 = "loop" :=
  (claim_C4_route_pattern_amended (fun _ _ => 0) keyPtsC4 (by decide)).1
    (by norm_num)

lemma clamp01_nonneg (q : ℚ) : 0 ≤ clamp01 q := le_max_left 0 _

lemma clamp01_le_one (q : ℚ) : clamp01 q ≤ 1 :=
  max_le (by norm_num) (min_le_left 1 q)

/-- C6: every route scored by `scoreRoutes` carries a score equal to
the clamp into `[0,1]` of 0.5 plus the goal, weather, time-efficiency,
quality and historical-pattern sub-scores — in particular the score is
always within `[0,1]` even when the raw sum lies outside. -/
theorem claim_C6_scores_clamped (dist : Coord → Coord → ℚ)
    (routes : List Route) (c : ScoreCriteria) (sr : ScoredRoute)
    (hmem : sr ∈ scoreRoutes dist routes c) :
    0 ≤ sr.score ∧ sr.score ≤ 1 ∧
    ∃ r ∈ routes, sr.route = r ∧
      sr.score = clamp01 (routeScoreRaw dist r c) ∧
      routeScoreRaw dist r c =
        1/2 + getTrainingGoalScore r c.trainingGoal
        + (match c.weatherData with
           | some w => getWeatherScore r w
           | none => 0)
        + getTimeEfficiencyScore r c.timeAvailable
        + getRouteQualityScore r
        + (match c.ridingPatterns with
           | some p => getHistoricalPatternScore dist r p
           | none => 0) := by
  simp only [scoreRoutes] at hmem
  rw [List.mem_insertionSort] at hmem
  obtain ⟨r, hr, rfl⟩ := List.mem_map.mp hmem
  exact ⟨clamp01_nonneg _, clamp01_le_one _, r, hr, rfl, rfl, rfl⟩

/-- A stand-in metric that is identically zero (used by witnesses). -/
def distZero : Coord → Coord → ℚ := fun _ _ => 0

/-- A concrete candidate that stacks every scoring bonus. -/
def routeC6 : Route :=
  { name := "Hill Test", distance := 10, elevationGain := 300
    elevationLoss := 0, coordinates := [], difficulty := "hard"
    trainingGoal := "hills", confidence := 9/10, windFactor := 13/10 }

/-- Criteria under which `routeC6`'s raw score is 1.45 (then clamped). -/
def criteriaC6 : ScoreCriteria :=
  { trainingGoal := "hills"
    weatherData := some { windSpeed := 0, windDegrees := 0
                          conditionsScore := fun _ => some 1 }
    timeAvailable := 26
    ridingPatterns := none }

/-- C6 witness: the scored singleton batch at `routeC6`, whose raw sum
1.45 exceeds 1 and is clamped to exactly 1. -/
theorem claim_C6_scores_clamped_witness :
    0 ≤ (ScoredRoute.mk routeC6 1).score ∧ (ScoredRoute.mk routeC6 1).score ≤ 1 ∧
    ∃ r ∈ [routeC6], (ScoredRoute.mk routeC6 1).route = r ∧
      (ScoredRoute.mk routeC6 1).score = clamp01 (routeScoreRaw distZero r criteriaC6) ∧
      routeScoreRaw distZero r criteriaC6 =
        1/2 + getTrainingGoalScore r criteriaC6.trainingGoal
        + (match criteriaC6.weatherData with
           | some w => getWeatherScore r w
           | none => 0)
        + getTimeEfficiencyScore r criteriaC6.timeAvailable
        + getRouteQualityScore r
        + (match criteriaC6.ridingPatterns with
           | some p => getHistoricalPatternScore distZero r p
           | none => 0) :=
  claim_C6_scores_clamped distZero [routeC6] criteriaC6 (ScoredRoute.mk routeC6 1)
    (by with_unfolding_all decide)

/-- C7 (amended): the frequent-area list has length at most 5, is
sorted in NON-INCREASING (weakly descending) frequency order, and every
element arises from a greedy cluster of at least 3 members with
`confidence = min(frequency/10, 1)`. -/
theorem claim_C7_frequent_areas_amended (rideLocations : List (List Loc)) :
    (findFrequentAreas rideLocations).length ≤ 5 ∧
    List.Sorted areaFreqGE (findFrequentAreas rideLocations) ∧
    ∀ a ∈ findFrequentAreas rideLocations,
      ∃ c ∈ clustersOf rideLocations.flatten,
        3 ≤ c.length ∧ a = clusterToArea c ∧ a.frequency = c.length ∧
        a.confidence = min ((c.length : ℚ) / 10) 1 := by
  refine ⟨?_, ?_, ?_⟩
  · simp only [findFrequentAreas]
    exact List.length_take_le 5 _
  · simp only [findFrequentAreas]
    exact List.Pairwise.sublist (List.take_sublist 5 _)
      (List.sorted_insertionSort areaFreqGE _)
  · intro a ha
    simp only [findFrequentAreas] at ha
    have ha2 := List.mem_of_mem_take ha
    rw [List.mem_insertionSort] at ha2
    obtain ⟨cl, hcl, rfl⟩ := List.mem_map.mp ha2
    rw [List.mem_filter] at hcl
    exact ⟨cl, hcl.1, by simpa using hcl.2, rfl, rfl, rfl⟩

/-- C7 witness: the amended property instantiated on a single triple of
coinciding locations, whose area `((0,0), 3, 0.3)` arises from the
unique cluster of size 3. -/
theorem claim_C7_frequent_areas_amended_witness :
    ∃ c ∈ clustersOf ([[⟨0, 0⟩, ⟨0, 0⟩, ⟨0, 0⟩]] : List (List Loc)).flatten,
      3 ≤ c.length ∧
      (⟨(0, 0), 3, 3/10⟩ : FrequentArea) = clusterToArea c ∧
      (⟨(0, 0), 3, 3/10⟩ : FrequentArea).frequency = c.length ∧
      (⟨(0, 0), 3, 3/10⟩ : FrequentArea).confidence = min ((c.length : ℚ) / 10) 1 :=
  (claim_C7_frequent_areas_amended [[⟨0, 0⟩, ⟨0, 0⟩, ⟨0, 0⟩]]).2.2
    ⟨(0, 0), 3, 3/10⟩ (by with_unfolding_all decide)

/-- C10: the generator's pattern confidence is always within `[0, 1]`;
with at least one signal present it never exceeds 0.3 (each factor
contributes at most its weight and the sum is divided by the factor
count), only the no-signal case yields the 0.5 default, and the
historical-pattern score is exactly its raw bonus multiplied by this
confidence — hence always down-weighted by a factor of at most 0.5. -/
theorem claim_C10_pattern_confidence (p : Patterns)
    (hpref : ∀ d ∈ p.preferredDirections, 0 ≤ d.preference ∧ d.preference ≤ 1) :
    0 ≤ calculatePatternConfidence p ∧ calculatePatternConfidence p ≤ 1 ∧
    calculatePatternConfidence p ≤ 1/2 ∧
    ((distanceSignal p = true ∨ p.frequentAreas ≠ [] ∨
        p.preferredDirections ≠ [] ∨ p.elevationTolerance.mean.isSome = true) →
      calculatePatternConfidence p ≤ 3/10) ∧
    (¬ (distanceSignal p = true ∨ p.frequentAreas ≠ [] ∨
        p.preferredDirections ≠ [] ∨ p.elevationTolerance.mean.isSome = true) →
      calculatePatternConfidence p = 1/2) ∧
    ∀ dist route, getHistoricalPatternScore dist route p =
      rawPatternScore dist route p * calculatePatternConfidence p := by
  have hb3 : p.preferredDirections ≠ [] →
      0 ≤ p.preferredDirections.headI.preference ∧
      p.preferredDirections.headI.preference ≤ 1 := by
    intro h
    obtain ⟨d, ds, hl⟩ := List.exists_cons_of_ne_nil h
    refine hpref _ ?_
    rw [hl]
    simp
  have hmin0 : (0:ℚ) ≤ min ((p.frequentAreas.length : ℚ) / 3) 1 :=
    le_min (div_nonneg (Nat.cast_nonneg _) (by norm_num)) (by norm_num)
  have hmin1 : min ((p.frequentAreas.length : ℚ) / 3) 1 ≤ 1 := min_le_right _ _
  have e1a : (0:ℚ) ≤ (if distanceSignal p then (3:ℚ)/10 else 0) := by
    split <;> norm_num
  have e1b : (if distanceSignal p then (3:ℚ)/10 else 0) ≤
      3/10 * (if distanceSignal p then (1:ℚ) else 0) := by
    split <;> norm_num
  have e2a : (0:ℚ) ≤ (if p.frequentAreas ≠ [] then
      (3:ℚ)/10 * min ((p.frequentAreas.length : ℚ) / 3) 1 else 0) := by
    split
    · nlinarith
    · norm_num
  have e2b : (if p.frequentAreas ≠ [] then
      (3:ℚ)/10 * min ((p.frequentAreas.length : ℚ) / 3) 1 else 0) ≤
      3/10 * (if p.frequentAreas ≠ [] then (1:ℚ) else 0) := by
    split
    · nlinarith
    · norm_num
  have e3a : (0:ℚ) ≤ (if p.preferredDirections ≠ [] then
      (1:ℚ)/5 * p.preferredDirections.headI.preference else 0) := by
    split
    · rename_i h
      nlinarith [(hb3 h).1]
    · norm_num
  have e3b : (if p.preferredDirections ≠ [] then
      (1:ℚ)/5 * p.preferredDirections.headI.preference else 0) ≤
      3/10 * (if p.preferredDirections ≠ [] then (1:ℚ) else 0) := by
    split
    · rename_i h
      nlinarith [(hb3 h).2]
    · norm_num
  have e4a : (0:ℚ) ≤ (if p.elevationTolerance.mean.isSome then (1:ℚ)/5 else 0) := by
    split <;> norm_num
  have e4b : (if p.elevationTolerance.mean.isSome then (1:ℚ)/5 else 0) ≤
      3/10 * (if p.elevationTolerance.mean.isSome then (1:ℚ) else 0) := by
    split <;> norm_num
  have hcast : ((patternFactorCount p : ℕ) : ℚ) =
      (if distanceSignal p then (1:ℚ) else 0)
      + (if p.frequentAreas ≠ [] then (1:ℚ) else 0)
      + (if p.preferredDirections ≠ [] then (1:ℚ) else 0)
      + (if p.elevationTolerance.mean.isSome then (1:ℚ) else 0) := by
    simp only [patternFactorCount]
    push_cast [apply_ite (fun n : ℕ => (n : ℚ))]
    norm_num
  have hsum0 : 0 ≤ patternScoreSum p := by
    simp only [patternScoreSum]
    linarith
  have hsumle : patternScoreSum p ≤ 3/10 * ((patternFactorCount p : ℕ) : ℚ) := by
    simp only [patternScoreSum]
    rw [hcast]
    linarith
  have hfac_iff : 0 < patternFactorCount p ↔
      (distanceSignal p = true ∨ p.frequentAreas ≠ [] ∨
        p.preferredDirections ≠ [] ∨ p.elevationTolerance.mean.isSome = true) := by
    simp only [patternFactorCount]
    by_cases h1 : distanceSignal p = true <;>
      by_cases h2 : p.frequentAreas ≠ [] <;>
      by_cases h3 : p.preferredDirections ≠ [] <;>
      by_cases h4 : p.elevationTolerance.mean.isSome = true <;>
      simp [h1, h2, h3, h4]
  by_cases hf : 0 < patternFactorCount p
  · have hfQ : (0:ℚ) < ((patternFactorCount p : ℕ) : ℚ) := by exact_mod_cast hf
    have hc : calculatePatternConfidence p =
        patternScoreSum p / ((patternFactorCount p : ℕ) : ℚ) := by
      simp [calculatePatternConfidence, hf]
    have hle : calculatePatternConfidence p ≤ 3/10 := by
      rw [hc, div_le_iff₀ hfQ]
      linarith
    have hge : 0 ≤ calculatePatternConfidence p := by
      rw [hc]
      exact div_nonneg hsum0 hfQ.le
    exact ⟨hge, by linarith, by linarith, fun _ => hle,
      fun hno => absurd (hfac_iff.mp hf) hno, fun _ _ => rfl⟩
  · have hc : calculatePatternConfidence p = 1/2 := by
      simp [calculatePatternConfidence, hf]
    exact ⟨by rw [hc]; norm_num, by rw [hc]; norm_num, by rw [hc],
      fun hsig => absurd (hfac_iff.mpr hsig) hf, fun _ => hc, fun _ _ => rfl⟩

/-- C10 witness: the property instantiated at the default profile
(two signals present: mean and elevation tolerance), where the
confidence evaluates to `(0.3 + 0.2)/2 = 0.25 ≤ 0.3`. -/
theorem claim_C10_pattern_confidence_witness :
    0 ≤ calculatePatternConfidence getDefaultPatterns ∧
    calculatePatternConfidence getDefaultPatterns ≤ 1 ∧
    calculatePatternConfidence getDefaultPatterns ≤ 1/2 ∧
    ((distanceSignal getDefaultPatterns = true ∨
        getDefaultPatterns.frequentAreas ≠ [] ∨
        getDefaultPatterns.preferredDirections ≠ [] ∨
        getDefaultPatterns.elevationTolerance.mean.isSome = true) →
      calculatePatternConfidence getDefaultPatterns ≤ 3/10) ∧
    (¬ (distanceSignal getDefaultPatterns = true ∨
        getDefaultPatterns.frequentAreas ≠ [] ∨
        getDefaultPatterns.preferredDirections ≠ [] ∨
        getDefaultPatterns.elevationTolerance.mean.isSome = true) →
      calculatePatternConfidence getDefaultPatterns = 1/2) ∧
    ∀ dist route, getHistoricalPatternScore dist route getDefaultPatterns =
      rawPatternScore dist route getDefaultPatterns *
        calculatePatternConfidence getDefaultPatterns :=
  claim_C10_pattern_confidence getDefaultPatterns (by simp [getDefaultPatterns])

end CyclingAI
